import Mathlib

/-!
Shallow embedding of `mastodon-archiver.py` (class `MastodonArchiver`).

Effectful Python code is modelled by explicit state passing:
* the sqlite table `archived_posts` becomes a list of `LedgerRow` in
  insertion order (`archived_at` timestamps are nondecreasing in insertion
  order, so `ORDER BY archived_at DESC LIMIT 1` is modelled as the last
  inserted row of the given type);
* the filesystem (`media/` and `posts/` directories) becomes lists inside
  `ArchiveState`;
* network and filesystem failures become boolean-valued oracles in `Env`
  (`downloadOk url` : does `requests.get(url)` succeed; `writeOk id` : does
  writing `posts/<id>.json` succeed);
* `hashlib.md5(url).hexdigest()[:8]` becomes the oracle `Env.md5_8`.

Dictionary fields read with `.get(k, default)` become `Option` fields read
with `getD`; fields read with `[k]` (raising `KeyError` when absent) become
plain fields.
-/

namespace MastodonArchiver

/-- `post["account"]` : the fields `archive_post` reads with `[...]`. -/
structure Account where
  id : String
  username : String
  acct : String
  display_name : String
  url : String
  deriving DecidableEq, Repr

/-- One element of `media_attachments`. `url`, `type`, `description` are read
with `.get`, so they may be absent (`none`). -/
structure Attachment where
  url : Option String
  type : Option String
  description : Option String
  deriving DecidableEq, Repr

/-- `post["reblog"]` : the inner reblogged status, with the fields
`archive_post` reads from it. -/
structure Reblog where
  id : String
  url : Option String
  account : Account
  content : Option String
  created_at : Option String
  media_attachments : List Attachment
  deriving DecidableEq, Repr

/-- A feed item as returned by the API, restricted to the fields the
archiver inspects. -/
structure Post where
  id : String
  url : Option String
  uri : Option String
  created_at : Option String
  account : Account
  content : Option String
  spoiler_text : Option String
  visibility : Option String
  language : Option String
  replies_count : Option Nat
  reblogs_count : Option Nat
  favourites_count : Option Nat
  media_attachments : List Attachment
  reblog : Option Reblog
  deriving DecidableEq, Repr

/-- A row of the sqlite table `archived_posts`.  NOTE: in the source schema
`post_id` alone is the `PRIMARY KEY`; `post_type` is a plain column. -/
structure LedgerRow where
  post_id : String
  post_type : String
  post_url : String
  account_username : String
  created_at : String
  deriving DecidableEq, Repr

/-- The `reblog` sub-dictionary stored inside an archived post record. -/
structure RebData where
  id : String
  url : String
  account : Account
  content : String
  created_at : String
  deriving DecidableEq, Repr

/-- One element of `post_data["media_files"]`. -/
structure MediaFileEntry where
  original_url : String
  local_path : String
  type : String
  description : String
  deriving DecidableEq, Repr

/-- The `post_data` dictionary written to `posts/<id>.json`. -/
structure PostData where
  id : String
  type : String
  archived_at : String
  url : String
  uri : String
  created_at : String
  account : Account
  content : String
  spoiler_text : String
  visibility : String
  language : Option String
  replies_count : Nat
  reblogs_count : Nat
  favourites_count : Nat
  media_attachments : List Attachment
  media_files : List MediaFileEntry
  reblog : Option RebData
  deriving DecidableEq, Repr

/-- The mutable state an archiver run threads through: the sqlite table (in
insertion order), the set of filenames present under `media/`, and the
records written under `posts/` (most recent write first). -/
structure ArchiveState where
  db : List LedgerRow
  mediaFiles : List String
  postFiles : List (String × PostData)
  deriving DecidableEq, Repr

/-- The effect oracles: media download success, post-record write success,
and the md5 url-hash prefix used in filenames. -/
structure Env where
  downloadOk : String → Bool
  writeOk : String → Bool
  md5_8 : String → String

/-- `is_post_archived`: `SELECT 1 FROM archived_posts WHERE post_id = ? AND
post_type = ?` is nonempty. -/
def is_post_archived (db : List LedgerRow) (post_id post_type : String) : Bool :=
  db.any fun r => r.post_id == post_id && r.post_type == post_type

/-- `mark_post_archived`: `INSERT OR IGNORE` into a table whose primary key
is `post_id` alone, so the insert is skipped whenever any row with this
`post_id` exists, whatever its `post_type`. -/
def mark_post_archived (db : List LedgerRow)
    (post_id post_type post_url account_username created_at : String) :
    List LedgerRow :=
  if db.any fun r => r.post_id == post_id then db
  else db ++ [⟨post_id, post_type, post_url, account_username, created_at⟩]

/-- `SELECT post_id FROM archived_posts WHERE post_type = ? ORDER BY
archived_at DESC LIMIT 1`: the most recently inserted row of this type. -/
def last_archived_id (db : List LedgerRow) (post_type : String) : Option String :=
  ((db.filter fun r => r.post_type == post_type).getLast?).map LedgerRow.post_id

/-- Outcome of `self.session.get(url, params=params)` as seen by
`get_api_data`: a raised transport exception, or a response with an HTTP
status and an optional decoded JSON body (`none` models a body that fails
to decode as JSON). -/
inductive HttpOutcome where
  | transportError (msg : String)
  | response (status : Nat) (body : Option (List Post))

/-- `get_api_data`: `raise_for_status` raises for statuses 400-599, and both
it, transport errors and `response.json()` decode errors are caught as
`requests.RequestException`, logged, and turned into `None`. -/
def get_api_data (o : HttpOutcome) : Option (List Post) :=
  match o with
  | .transportError _ => none
  | .response status body =>
    if 400 ≤ status ∧ status < 600 then none
    else
      match body with
      | none => none
      | some posts => some posts

/-- Locate the `://` scheme separator and return what follows it. -/
def after_scheme : List Char → Option (List Char)
  | ':' :: '/' :: '/' :: rest => some rest
  | _ :: rest => after_scheme rest
  | [] => none

/-- `Path(urlparse(url).path).name`: the url path (scheme and host
stripped, query and fragment cut off), then the component after the last
slash. -/
def url_basename (url : String) : String :=
  let cs := url.toList
  let path :=
    match after_scheme cs with
    | some rest => rest.dropWhile fun c => c != '/'
    | none => cs
  let path := path.takeWhile fun c => c != '?'
  let path := path.takeWhile fun c => c != '#'
  String.mk (path.reverse.takeWhile fun c => c != '/').reverse

/-- `Path(name).suffix`: `name[i:]` where `i` is the index of the last dot,
provided `0 < i < len(name) - 1`; empty otherwise. -/
def path_suffix (name : String) : String :=
  let cs := name.toList
  if cs.contains '.' then
    let after := (cs.reverse.takeWhile fun c => c != '.').reverse
    let i := cs.length - after.length - 1
    if 0 < i ∧ 0 < after.length then String.mk ('.' :: after) else ""
  else ""

/-- `generate_filename`: `{post_id}_{md5(url)[:8]}{ext}` and, for a positive
index, `{post_id}_{md5(url)[:8]}_{index}{ext}`; extension falls back to
`.jpg`. -/
def generate_filename (md5_8 : String → String) (url post_id : String)
    (index : Nat) : String :=
  let ext := path_suffix (url_basename url)
  let ext := if ext = "" then ".jpg" else ext
  if index > 0 then
    post_id ++ "_" ++ md5_8 url ++ "_" ++ toString index ++ ext
  else
    post_id ++ "_" ++ md5_8 url ++ ext

/-- `download_media`: return the existing relative path when the file is
already present, otherwise download (adding the file on success) and fall
back to the original url on failure. -/
def download_media (env : Env) (st : ArchiveState) (media_url filename : String) :
    String × ArchiveState :=
  if st.mediaFiles.contains filename then
    ("media/" ++ filename, st)
  else if env.downloadOk media_url then
    ("media/" ++ filename, { st with mediaFiles := st.mediaFiles ++ [filename] })
  else
    (media_url, st)

/-- Python truthiness of an optional string (`if not media_url: continue`,
`if last_archived_id and ...`). -/
def truthy : Option String → Bool
  | none => false
  | some s => !(s == "")

/-- The `for i, attachment in enumerate(media_source.get("media_attachments", []))`
loop of `archive_post`: skips attachments with a missing or empty `url`,
downloads the rest, and accumulates the parallel `media_attachments` and
`media_files` lists. -/
def archive_media (env : Env) (post_id : String) :
    ArchiveState → List (Nat × Attachment) →
    ArchiveState × List Attachment × List MediaFileEntry
  | st, [] => (st, [], [])
  | st, (i, att) :: rest =>
    match att.url with
    | none => archive_media env post_id st rest
    | some u =>
      if u == "" then archive_media env post_id st rest
      else
        let filename := generate_filename env.md5_8 u post_id i
        let dl := download_media env st u filename
        let out := archive_media env post_id dl.2 rest
        (out.1, att :: out.2.1,
          ⟨u, dl.1, att.type.getD "unknown", att.description.getD ""⟩ :: out.2.2)

/-- The attachments the media loop iterates over: the reblogged status's
when the item is a reblog, the item's own otherwise. -/
def media_source_attachments (post : Post) : List Attachment :=
  match post.reblog with
  | some rb => rb.media_attachments
  | none => post.media_attachments

/-- The `post_data` dictionary built by `archive_post` (`now` is
`datetime.now(timezone.utc).isoformat()`). -/
def make_post_data (now : String) (post : Post) (post_type : String)
    (atts : List Attachment) (files : List MediaFileEntry) : PostData :=
  { id := post.id
    type := post_type
    archived_at := now
    url := post.url.getD ""
    uri := post.uri.getD ""
    created_at := post.created_at.getD ""
    account := post.account
    content := post.content.getD ""
    spoiler_text := post.spoiler_text.getD ""
    visibility := post.visibility.getD "public"
    language := post.language
    replies_count := post.replies_count.getD 0
    reblogs_count := post.reblogs_count.getD 0
    favourites_count := post.favourites_count.getD 0
    media_attachments := atts
    media_files := files
    reblog := post.reblog.map fun rb =>
      ⟨rb.id, rb.url.getD "", rb.account, rb.content.getD "", rb.created_at.getD ""⟩ }

/-- `archive_post`: short-circuit on the dedup check, download media, build
the record, write it, and only then mark the post archived; a failed write
returns `False` with the ledger untouched. -/
def archive_post (env : Env) (now : String) (st : ArchiveState) (post : Post)
    (post_type : String) : Bool × ArchiveState :=
  if is_post_archived st.db post.id post_type then
    (false, st)
  else
    let m := archive_media env post.id st (media_source_attachments post).enum
    let st1 := m.1
    let post_data := make_post_data now post post_type m.2.1 m.2.2
    if env.writeOk post.id then
      (true,
        { st1 with
          postFiles := (post.id, post_data) :: st1.postFiles
          db := mark_post_archived st1.db post.id post_type (post.url.getD "")
            post.account.acct (post.created_at.getD "") })
    else
      (false, st1)

/-- The boundary test `if last_archived_id and post_id == last_archived_id`. -/
def boundary_hit (lastid : Option String) (post_id : String) : Bool :=
  truthy lastid && (lastid.getD "" == post_id)

/-- The inner `for post in page_posts` scan of one page: returns the new
posts collected from this page (in received order) and whether the
previously-archived boundary was reached. -/
def scan_page (db : List LedgerRow) (post_type : String) (lastid : Option String) :
    List Post → List Post × Bool
  | [] => ([], false)
  | p :: rest =>
    if boundary_hit lastid p.id then ([], true)
    else
      let out := scan_page db post_type lastid rest
      if is_post_archived db p.id post_type then out
      else (p :: out.1, out.2)

/-- The cursor for the next page: `max_id = page_posts[-1]["id"]`, and
`if max_id:` drops a falsy cursor from the request parameters. -/
def next_cursor (page : List Post) (fallback : Post) : Option String :=
  let l := (page.getLastD fallback).id
  if l == "" then none else some l

/-- The `while pages_processed < max_pages` pagination loop, with the
remaining page budget as fuel.  `fetch c` is `get_api_data(endpoint,
params)` with cursor `c`; a falsy result (`None` or `[]`) ends pagination.
Returns the collected posts (in scan order) and the number of pages
processed. -/
def fetch_pages (fetch : Option String → Option (List Post)) (db : List LedgerRow)
    (post_type : String) (lastid : Option String) :
    Nat → Option String → List Post × Nat
  | 0, _ => ([], 0)
  | fuel + 1, max_id =>
    match fetch max_id with
    | none => ([], 0)
    | some [] => ([], 0)
    | some (p :: ps) =>
      let page := p :: ps
      let sc := scan_page db post_type lastid page
      if sc.2 then (sc.1, 1)
      else if page.length < 40 then (sc.1, 1)
      else
        let next := fetch_pages fetch db post_type lastid fuel (next_cursor page p)
        (sc.1 ++ next.1, 1 + next.2)

/-- Result of `get_posts_since_last_run`: the batch (oldest first after the
final `posts.reverse()`), the number of pages processed, and whether the
max-pages warning fired (`pages_processed >= max_pages`). -/
structure PaginationResult where
  posts : List Post
  pages : Nat
  warned : Bool
  deriving DecidableEq, Repr

/-- `get_posts_since_last_run`: seed the boundary from the ledger, walk at
most 100 pages of size 40, and reverse the batch to oldest-first order. -/
def get_posts_since_last_run (fetch : Option String → Option (List Post))
    (db : List LedgerRow) (post_type : String) : PaginationResult :=
  let lastid := last_archived_id db post_type
  let out := fetch_pages fetch db post_type lastid 100 none
  { posts := out.1.reverse, pages := out.2, warned := decide (100 ≤ out.2) }

/-- The `for post in new_posts: if self.archive_post(...)` counting loop of
`archive_favorites` / `archive_bookmarks`. -/
def archive_posts_loop (env : Env) (now : String) (post_type : String) :
    ArchiveState → List Post → Nat × ArchiveState
  | st, [] => (0, st)
  | st, p :: ps =>
    let r := archive_post env now st p post_type
    let rest := archive_posts_loop env now post_type r.2 ps
    ((if r.1 then 1 else 0) + rest.1, rest.2)

/-- One category pass (`archive_favorites` / `archive_bookmarks`): paginate,
then archive each new post in order, returning the archived count. -/
def archive_category (env : Env) (now : String)
    (fetch : Option String → Option (List Post)) (st : ArchiveState)
    (post_type : String) : Nat × ArchiveState :=
  let pr := get_posts_since_last_run fetch st.db post_type
  archive_posts_loop env now post_type st pr.posts

/-- `run`: favorites then bookmarks, returning both counts and the final
state. -/
def run_archiver (env : Env) (now : String)
    (fetchFav fetchBm : Option String → Option (List Post))
    (st : ArchiveState) : Nat × Nat × ArchiveState :=
  let fav := archive_category env now fetchFav st "favorite"
  let bm := archive_category env now fetchBm fav.2 "bookmark"
  (fav.1, bm.1, bm.2)

/-! ### Concrete fixtures used by the closed theorems and witnesses -/

/-- A minimal account object. -/
def acct0 : Account := ⟨"a", "u", "u@h", "U", "https://h/u"⟩

/-- A minimal feed item with a given id and no media. -/
def mkPost (i : String) : Post :=
  { id := i, url := none, uri := none, created_at := none, account := acct0,
    content := none, spoiler_text := none, visibility := none, language := none,
    replies_count := none, reblogs_count := none, favourites_count := none,
    media_attachments := [], reblog := none }

/-- All downloads and writes succeed. -/
def env0 : Env := ⟨fun _ => true, fun _ => true, fun _ => "h"⟩

/-- All downloads succeed, every post-record write fails. -/
def envW : Env := ⟨fun _ => true, fun _ => false, fun _ => "h"⟩

/-- Fresh archive: empty ledger, no media, no records. -/
def st0 : ArchiveState := ⟨[], [], []⟩

/-- The spec's boundary-correctness feed: ids 10 down to 1, newest first. -/
def feed3 : List Post := (["10","9","8","7","6","5","4","3","2","1"]).map mkPost

/-- Ledger with items 1..5 archived as favorites, 5 most recent. -/
def db3 : List LedgerRow :=
  (["1","2","3","4","5"]).map fun i => ⟨i, "favorite", "", "", ""⟩

/-- A feed endpoint that always serves `feed3` as a single page. -/
def fetch3 : Option String → Option (List Post) := fun _ => some feed3

/-- A feed endpoint that always serves the single item `1`. -/
def fetch1 : Option String → Option (List Post) := fun _ => some [mkPost "1"]

/-- A feed endpoint that always serves a full page of 40 items. -/
def fetchFull : Option String → Option (List Post) :=
  fun _ => some (List.replicate 40 (mkPost "1"))

/-- One full page of 40 items. -/
def page40 : List Post := List.replicate 40 (mkPost "1")

/-- A feed endpoint whose first page is full and whose second fetch fails
(transport error turned into `None` by `get_api_data`). -/
def fetchF : Option String → Option (List Post) :=
  fun c => match c with | none => some page40 | some _ => none

/-- An attachment with no `url` key. -/
def attN : Attachment := ⟨none, some "image", some "no url"⟩

/-- An attachment with an empty `url`. -/
def attE : Attachment := ⟨some "", some "image", none⟩

/-- A downloadable image attachment. -/
def attA : Attachment := ⟨some "https://files.h/a.png", some "image", some "first"⟩

/-- A video attachment whose download will fail under `envC5`. -/
def attB : Attachment := ⟨some "https://files.h/b.png", some "video", none⟩

/-- Downloads succeed only for `attA`; writes succeed. -/
def envC5 : Env := ⟨fun u => u == "https://files.h/a.png", fun _ => true, fun _ => "h"⟩

/-- An item with one good and one failing attachment. -/
def postC5 : Post := { mkPost "5" with media_attachments := [attA, attB] }

/-- A reblogged status carrying one attachment. -/
def rbC8 : Reblog := ⟨"r1", none, acct0, none, none, [attA]⟩

/-- A reblog item whose own attachment list differs from the inner one. -/
def postC8 : Post := { mkPost "8" with reblog := some rbC8, media_attachments := [attB] }

/-- An item mixing attachments with missing, empty and present urls. -/
def postC9 : Post := { mkPost "9" with media_attachments := [attN, attA, attE, attB] }

/-! ### Helper lemmas -/

/-- `download_media` never touches the ledger. -/
theorem download_media_db (env : Env) (st : ArchiveState) (u fn : String) :
    (download_media env st u fn).2.db = st.db := by
  unfold download_media
  split
  · rfl
  · split <;> rfl

/-- `download_media` never touches the post-record store. -/
theorem download_media_postFiles (env : Env) (st : ArchiveState) (u fn : String) :
    (download_media env st u fn).2.postFiles = st.postFiles := by
  unfold download_media
  split
  · rfl
  · split <;> rfl

/-- The media loop never touches the ledger. -/
theorem archive_media_db (env : Env) (pid : String) :
    ∀ (L : List (Nat × Attachment)) (st : ArchiveState),
      (archive_media env pid st L).1.db = st.db := by
  intro L
  induction L with
  | nil => intro st; rfl
  | cons hd tl ih =>
    intro st
    obtain ⟨i, att⟩ := hd
    cases hue : att.url with
    | none => simp [archive_media, hue, ih]
    | some u =>
      by_cases hu : u == ""
      · simp [archive_media, hue, hu, ih]
      · simp [archive_media, hue, hu, ih, download_media_db]

/-- The media loop never touches the post-record store. -/
theorem archive_media_postFiles (env : Env) (pid : String) :
    ∀ (L : List (Nat × Attachment)) (st : ArchiveState),
      (archive_media env pid st L).1.postFiles = st.postFiles := by
  intro L
  induction L with
  | nil => intro st; rfl
  | cons hd tl ih =>
    intro st
    obtain ⟨i, att⟩ := hd
    cases hue : att.url with
    | none => simp [archive_media, hue, ih]
    | some u =>
      by_cases hu : u == ""
      · simp [archive_media, hue, hu, ih]
      · simp [archive_media, hue, hu, ih, download_media_postFiles]

/-! ### Claim theorems -/

/-- C1: if writing the per-item JSON record fails, `archive_post` reports
failure for that item and the ledger is not committed for that
(itemID, category) pair — the row set is exactly what it was before, so the
item remains eligible for a future retry. -/
theorem archive_post_write_failure_no_ledger_commit
    (env : Env) (now : String) (st : ArchiveState) (post : Post) (t : String)
    (hw : env.writeOk post.id = false) :
    (archive_post env now st post t).1 = false ∧
    (archive_post env now st post t).2.db = st.db := by
  cases ha : is_post_archived st.db post.id t with
  | true => simp [archive_post, ha]
  | false => simp [archive_post, ha, hw, archive_media_db]

/-- Witness for C1 at a concrete input: with every write failing, archiving
item `1` into a fresh archive reports `false` and leaves the ledger as it
was. -/
theorem archive_post_write_failure_no_ledger_commit_witness :
    (archive_post envW "t" st0 (mkPost "1") "favorite").1 = false ∧
    (archive_post envW "t" st0 (mkPost "1") "favorite").2.db = st0.db :=
  archive_post_write_failure_no_ledger_commit envW "t" st0 (mkPost "1") "favorite" rfl

/-- C2 (code bug): the table's primary key is `post_id` alone, so after item
`1` is committed as a favorite, committing the same id as a bookmark is
silently ignored and `is_post_archived` stays `false` for the
(1, bookmark) pair — contradicting pair-keyed dedup. -/
theorem ledger_commit_ignored_across_categories :
    (mark_post_archived (mark_post_archived [] "1" "favorite" "" "" "")
        "1" "bookmark" "u" "a" "c"
      = mark_post_archived [] "1" "favorite" "" "" "") ∧
    is_post_archived
      (mark_post_archived (mark_post_archived [] "1" "favorite" "" "" "")
        "1" "bookmark" "u" "a" "c") "1" "bookmark" = false := by
  constructor
  · rfl
  · rfl

/-- C3 counterexample: with feed ids [10..1] and boundary marker 5 (items
1..5 archived, 5 most recent), the paginator returns the five items
6,7,8,9,10 in processing order — not the four items 6,7,8,9 the claim
states. -/
theorem paginator_boundary_counterexample :
    (get_posts_since_last_run fetch3 db3 "favorite").posts.map Post.id
      = ["6", "7", "8", "9", "10"] ∧
    (get_posts_since_last_run fetch3 db3 "favorite").posts.map Post.id
      ≠ ["6", "7", "8", "9"] := by
  constructor
  · rfl
  · decide

/-- C3 amended: with feed ids [10..1] and boundary marker 5, the paginator
returns exactly the items 10,9,8,7,6, reversed to processing order
6,7,8,9,10; no item with id 5 or below is collected, and archiving the
batch commits exactly 6..10 (count 5). -/
theorem paginator_boundary_amended :
    (get_posts_since_last_run fetch3 db3 "favorite").posts.map Post.id
      = ["6", "7", "8", "9", "10"] ∧
    ((get_posts_since_last_run fetch3 db3 "favorite").posts.map Post.id).all
      (fun i => !(["5", "4", "3", "2", "1"] : List String).contains i) = true ∧
    (archive_category env0 "t" fetch3 ⟨db3, [], []⟩ "favorite").1 = 5 ∧
    ((archive_category env0 "t" fetch3 ⟨db3, [], []⟩ "favorite").2.db.map
        LedgerRow.post_id)
      = ["1", "2", "3", "4", "5", "6", "7", "8", "9", "10"] := by
  refine ⟨rfl, rfl, rfl, rfl⟩

/-- C4 (code bug): with the same item id `1` in both feeds and a fresh
archive, the first run archives it under both categories (counts 1 and 1)
but the bookmark ledger commit is ignored (primary key is `post_id`
alone), so a second run against the unchanged feeds re-archives it as a
bookmark: counts (0, 1) instead of (0, 0), and the record store grows from
2 entries to 3. -/
theorem second_run_not_idempotent_shared_id :
    (run_archiver env0 "T1" fetch1 fetch1 st0).1 = 1 ∧
    (run_archiver env0 "T1" fetch1 fetch1 st0).2.1 = 1 ∧
    (run_archiver env0 "T1" fetch1 fetch1 st0).2.2.postFiles.length = 2 ∧
    (run_archiver env0 "T2" fetch1 fetch1
        (run_archiver env0 "T1" fetch1 fetch1 st0).2.2).1 = 0 ∧
    (run_archiver env0 "T2" fetch1 fetch1
        (run_archiver env0 "T1" fetch1 fetch1 st0).2.2).2.1 = 1 ∧
    (run_archiver env0 "T2" fetch1 fetch1
        (run_archiver env0 "T1" fetch1 fetch1 st0).2.2).2.2.postFiles.length
      = 3 := by
  refine ⟨rfl, rfl, rfl, rfl, rfl, rfl⟩

/-- C10: when the (item, category) pair is already in the ledger,
`archive_post` returns `false` and the state — ledger, media directory and
record store alike — is returned unchanged: no download, write or commit
happens. -/
theorem archive_post_skip_no_side_effects
    (env : Env) (now : String) (st : ArchiveState) (post : Post) (t : String)
    (ha : is_post_archived st.db post.id t = true) :
    archive_post env now st post t = (false, st) := by
  simp [archive_post, ha]

/-- Witness for C10 at a concrete input: item `1` already archived as a
favorite is skipped with the state unchanged. -/
theorem archive_post_skip_no_side_effects_witness :
    archive_post env0 "t" ⟨[⟨"1", "favorite", "", "", ""⟩], [], []⟩
        (mkPost "1") "favorite"
      = (false, ⟨[⟨"1", "favorite", "", "", ""⟩], [], []⟩) :=
  archive_post_skip_no_side_effects env0 "t"
    ⟨[⟨"1", "favorite", "", "", ""⟩], [], []⟩ (mkPost "1") "favorite" (by decide)

/-- With no boundary marker the page scan never reports the boundary. -/
theorem scan_page_no_boundary (db : List LedgerRow) (t : String) :
    ∀ page : List Post, (scan_page db t none page).2 = false := by
  intro page
  induction page with
  | nil => rfl
  | cons p rest ih =>
    simp only [scan_page, boundary_hit, truthy, Bool.false_and,
      Bool.false_eq_true, if_false]
    split <;> simpa using ih

/-- The pagination loop processes at most `fuel` pages. -/
theorem fetch_pages_pages_le (fetch : Option String → Option (List Post))
    (db : List LedgerRow) (t : String) (lastid : Option String) :
    ∀ (fuel : Nat) (c : Option String),
      (fetch_pages fetch db t lastid fuel c).2 ≤ fuel := by
  intro fuel
  induction fuel with
  | zero => intro c; exact Nat.le_refl 0
  | succ n ih =>
    intro c
    rw [fetch_pages]
    cases hfc : fetch c with
    | none => simp
    | some l =>
      cases l with
      | nil => simp
      | cons p ps =>
        dsimp only
        split
        · simp
        · split
          · simp
          · dsimp only
            have h := ih (next_cursor (p :: ps) p)
            omega

/-- When every fetch returns a full page of 40 and there is no boundary
marker, the loop consumes its entire page budget. -/
theorem fetch_pages_full_feed (fetch : Option String → Option (List Post))
    (db : List LedgerRow) (t : String)
    (hfull : ∀ c, ∃ l, fetch c = some l ∧ l.length = 40) :
    ∀ (fuel : Nat) (c : Option String),
      (fetch_pages fetch db t none fuel c).2 = fuel := by
  intro fuel
  induction fuel with
  | zero => intro c; rfl
  | succ n ih =>
    intro c
    obtain ⟨l, hl, hlen⟩ := hfull c
    cases l with
    | nil => simp at hlen
    | cons p ps =>
      rw [fetch_pages, hl]
      simp only [scan_page_no_boundary, Bool.false_eq_true, if_false, hlen]
      simp [ih, Nat.add_comm]

/-- C6: pagination terminates.  Every run processes at most 100 pages; and
against a feed of endlessly full 40-item pages with no boundary marker in
the ledger, the run stops after exactly the 100-page cap with the warning
flag surfaced (the collected batch is still returned as the result). -/
theorem pagination_page_cap :
    (∀ (fetch : Option String → Option (List Post)) (db : List LedgerRow)
      (t : String), (get_posts_since_last_run fetch db t).pages ≤ 100) ∧
    (∀ (fetch : Option String → Option (List Post)) (db : List LedgerRow)
      (t : String),
      (∀ c, ∃ l, fetch c = some l ∧ l.length = 40) →
      last_archived_id db t = none →
      (get_posts_since_last_run fetch db t).pages = 100 ∧
      (get_posts_since_last_run fetch db t).warned = true) := by
  constructor
  · intro fetch db t
    exact fetch_pages_pages_le fetch db t (last_archived_id db t) 100 none
  · intro fetch db t hfull hnone
    have h : (fetch_pages fetch db t (last_archived_id db t) 100 none).2 = 100 := by
      rw [hnone]
      exact fetch_pages_full_feed fetch db t hfull 100 none
    constructor
    · exact h
    · simp [get_posts_since_last_run, h]

/-- Witness for C6 at a concrete input: an endlessly full feed against an
empty ledger stops at exactly 100 pages with the warning raised. -/
theorem pagination_page_cap_witness :
    (get_posts_since_last_run fetchFull [] "favorite").pages ≤ 100 ∧
    (get_posts_since_last_run fetchFull [] "favorite").pages = 100 ∧
    (get_posts_since_last_run fetchFull [] "favorite").warned = true := by
  refine ⟨pagination_page_cap.1 fetchFull [] "favorite", ?_, ?_⟩
  · exact (pagination_page_cap.2 fetchFull [] "favorite"
      (fun c => ⟨List.replicate 40 (mkPost "1"), rfl, by simp⟩) rfl).1
  · exact (pagination_page_cap.2 fetchFull [] "favorite"
      (fun c => ⟨List.replicate 40 (mkPost "1"), rfl, by simp⟩) rfl).2

/-- C7: transport errors, HTTP error statuses (400-599) and JSON-decode
failures all come back from `get_api_data` as the explicit failure value
`none`; and the pagination loop, on a failed fetch, stops fetching —
collecting nothing further — so an earlier full page's batch is returned
intact when the next fetch fails. -/
theorem fetch_failure_ends_pagination :
    (∀ msg, get_api_data (.transportError msg) = none) ∧
    (∀ s b, 400 ≤ s → s < 600 → get_api_data (.response s b) = none) ∧
    (∀ s, get_api_data (.response s none) = none) ∧
    (∀ (fetch : Option String → Option (List Post)) (db : List LedgerRow)
      (t : String) (lastid : Option String) (fuel : Nat) (c : Option String),
      fetch c = none → fetch_pages fetch db t lastid fuel c = ([], 0)) ∧
    (∀ (fetch : Option String → Option (List Post)) (db : List LedgerRow)
      (t : String) (lastid : Option String) (fuel : Nat) (c : Option String)
      (p : Post) (ps : List Post),
      fetch c = some (p :: ps) → (p :: ps).length = 40 →
      (scan_page db t lastid (p :: ps)).2 = false →
      fetch (next_cursor (p :: ps) p) = none →
      fetch_pages fetch db t lastid (fuel + 2) c
        = ((scan_page db t lastid (p :: ps)).1, 1)) := by
  refine ⟨fun msg => rfl, ?_, ?_, ?_, ?_⟩
  · intro s b h1 h2
    simp [get_api_data, h1, h2]
  · intro s
    by_cases h : 400 ≤ s ∧ s < 600
    · simp [get_api_data, h]
    · simp [get_api_data, h]
  · intro fetch db t lastid fuel c hfc
    cases fuel with
    | zero => rfl
    | succ n => rw [fetch_pages, hfc]
  · intro fetch db t lastid fuel c p ps hfc hlen hsc hnext
    rw [fetch_pages, hfc]
    simp only [hsc, Bool.false_eq_true, if_false, hlen]
    have hrec : fetch_pages fetch db t lastid (fuel + 1) (next_cursor (p :: ps) p)
        = ([], 0) := by
      rw [fetch_pages, hnext]
    simp [hrec]

/-- C7 counterexample: `raise_for_status` raises only for statuses 400-599,
so a non-2xx status outside that range — here 300 with a decodable list
body — is returned as data, not as the explicit failure value `none`; the
claim's "non-2xx HTTP status yields an explicit failure value" is false as
stated. -/
theorem non_error_status_returns_data :
    get_api_data (.response 300 (some [mkPost "1"])) = some [mkPost "1"] ∧
    get_api_data (.response 300 (some [mkPost "1"])) ≠ none := by
  refine ⟨?_, ?_⟩ <;> decide

/-- Witness for C7 at concrete inputs: each failure kind maps to `none`,
an immediately failing fetch yields the empty batch, and a full first page
followed by a failing fetch returns the first page's items. -/
theorem fetch_failure_ends_pagination_witness :
    get_api_data (.transportError "boom") = none ∧
    get_api_data (.response 500 (some [])) = none ∧
    get_api_data (.response 200 none) = none ∧
    fetch_pages fetchF [] "favorite" none 0 (some "1") = ([], 0) ∧
    fetch_pages fetchF [] "favorite" none 100 none
      = ((scan_page [] "favorite" none page40).1, 1) := by
  refine ⟨fetch_failure_ends_pagination.1 "boom",
    fetch_failure_ends_pagination.2.1 500 (some []) (by decide) (by decide),
    fetch_failure_ends_pagination.2.2.1 200,
    fetch_failure_ends_pagination.2.2.2.1 fetchF [] "favorite" none 0
      (some "1") rfl, ?_⟩
  exact fetch_failure_ends_pagination.2.2.2.2 fetchF [] "favorite" none 98 none
    (mkPost "1") (List.replicate 39 (mkPost "1")) rfl (by decide) (by decide) rfl

/-- The `media_attachments` list built by the media loop is exactly the
source attachments whose `url` is present and nonempty, in order. -/
theorem archive_media_atts (env : Env) (pid : String) :
    ∀ (L : List (Nat × Attachment)) (st : ArchiveState),
      (archive_media env pid st L).2.1
        = (L.map Prod.snd).filter fun a => truthy a.url := by
  intro L
  induction L with
  | nil => intro st; rfl
  | cons hd tl ih =>
    intro st
    obtain ⟨i, att⟩ := hd
    cases hue : att.url with
    | none => simp [archive_media, hue, ih, truthy]
    | some u =>
      by_cases hu : u == ""
      · simp [archive_media, hue, hu, ih, truthy]
      · simp [archive_media, hue, hu, ih, truthy]

/-- Positionally, each `media_files` entry carries the matching
attachment's url, type (default `unknown`) and description (default
empty). -/
theorem archive_media_files_match (env : Env) (pid : String) :
    ∀ (L : List (Nat × Attachment)) (st : ArchiveState),
      ((archive_media env pid st L).2.2.map MediaFileEntry.original_url
        = (archive_media env pid st L).2.1.map fun a => a.url.getD "") ∧
      ((archive_media env pid st L).2.2.map MediaFileEntry.type
        = (archive_media env pid st L).2.1.map fun a => a.type.getD "unknown") ∧
      ((archive_media env pid st L).2.2.map MediaFileEntry.description
        = (archive_media env pid st L).2.1.map fun a => a.description.getD "") := by
  intro L
  induction L with
  | nil => intro st; exact ⟨rfl, rfl, rfl⟩
  | cons hd tl ih =>
    intro st
    obtain ⟨i, att⟩ := hd
    cases hue : att.url with
    | none => simpa [archive_media, hue] using ih st
    | some u =>
      by_cases hu : u == ""
      · simpa [archive_media, hue, hu] using ih st
      · have h := ih (download_media env st u (generate_filename env.md5_8 u pid i)).2
        simp [archive_media, hue, hu, h.1, h.2.1, h.2.2]

/-- The two lists built by the media loop have equal length. -/
theorem archive_media_length (env : Env) (pid : String)
    (L : List (Nat × Attachment)) (st : ArchiveState) :
    (archive_media env pid st L).2.2.length
      = (archive_media env pid st L).2.1.length := by
  have h := congrArg List.length (archive_media_files_match env pid L st).1
  simpa using h

/-- Shape of a successful `archive_post`: returns `true`, prepends the
built record to the post store, and commits the ledger row. -/
theorem archive_post_success_shape
    (env : Env) (now : String) (st : ArchiveState) (post : Post) (t : String)
    (hnew : is_post_archived st.db post.id t = false)
    (hw : env.writeOk post.id = true) :
    (archive_post env now st post t).1 = true ∧
    (archive_post env now st post t).2.postFiles
      = (post.id,
          make_post_data now post t
            (archive_media env post.id st (media_source_attachments post).enum).2.1
            (archive_media env post.id st (media_source_attachments post).enum).2.2)
        :: st.postFiles ∧
    (archive_post env now st post t).2.db
      = mark_post_archived st.db post.id t (post.url.getD "") post.account.acct
          (post.created_at.getD "") := by
  refine ⟨?_, ?_, ?_⟩ <;>
    simp [archive_post, hnew, hw, archive_media_postFiles, archive_media_db]

/-- C8: the written record's media lists are sourced from the inner
reblogged status's attachments when the item is a reblog, and from the
item's own attachments otherwise; `media_files` positions carry exactly
those attachments' urls. -/
theorem reblog_media_sourcing
    (env : Env) (now : String) (st : ArchiveState) (post : Post) (t : String)
    (hnew : is_post_archived st.db post.id t = false)
    (hw : env.writeOk post.id = true) :
    ∃ pd rest,
      (archive_post env now st post t).2.postFiles = (post.id, pd) :: rest ∧
      (∀ rb, post.reblog = some rb →
        pd.media_attachments = rb.media_attachments.filter fun a => truthy a.url) ∧
      (post.reblog = none →
        pd.media_attachments = post.media_attachments.filter fun a => truthy a.url) ∧
      pd.media_files.map MediaFileEntry.original_url
        = pd.media_attachments.map fun a => a.url.getD "" := by
  obtain ⟨-, h2, -⟩ := archive_post_success_shape env now st post t hnew hw
  refine ⟨_, _, h2, ?_, ?_, ?_⟩
  · intro rb hrb
    simp [make_post_data, archive_media_atts, List.enum_map_snd,
      media_source_attachments, hrb]
  · intro hrb
    simp [make_post_data, archive_media_atts, List.enum_map_snd,
      media_source_attachments, hrb]
  · simpa [make_post_data] using
      (archive_media_files_match env post.id (media_source_attachments post).enum st).1

/-- Witness for C8 at a concrete input: a reblog item whose own list holds
`attB` while the inner status holds `attA` gets `attA` (and only it) in
the written record. -/
theorem reblog_media_sourcing_witness :
    ∃ pd rest,
      (archive_post env0 "t" st0 postC8 "favorite").2.postFiles
        = (postC8.id, pd) :: rest ∧
      (∀ rb, postC8.reblog = some rb →
        pd.media_attachments = rb.media_attachments.filter fun a => truthy a.url) ∧
      (postC8.reblog = none →
        pd.media_attachments = postC8.media_attachments.filter fun a => truthy a.url) ∧
      pd.media_files.map MediaFileEntry.original_url
        = pd.media_attachments.map fun a => a.url.getD "" :=
  reblog_media_sourcing env0 "t" st0 postC8 "favorite" (by decide) rfl

/-- C9: in every record written by `archive_post`, `media_attachments` and
`media_files` have equal length and correspond position by position (url,
type with default `unknown`, description with default empty); attachments
of the media source with a missing or empty url are omitted from both
lists. -/
theorem media_lists_parallel
    (env : Env) (now : String) (st : ArchiveState) (post : Post) (t : String)
    (hnew : is_post_archived st.db post.id t = false)
    (hw : env.writeOk post.id = true) :
    ∃ pd rest,
      (archive_post env now st post t).2.postFiles = (post.id, pd) :: rest ∧
      pd.media_files.length = pd.media_attachments.length ∧
      (pd.media_files.map MediaFileEntry.original_url
        = pd.media_attachments.map fun a => a.url.getD "") ∧
      (pd.media_files.map MediaFileEntry.type
        = pd.media_attachments.map fun a => a.type.getD "unknown") ∧
      (pd.media_files.map MediaFileEntry.description
        = pd.media_attachments.map fun a => a.description.getD "") ∧
      pd.media_attachments
        = (media_source_attachments post).filter fun a => truthy a.url := by
  obtain ⟨-, h2, -⟩ := archive_post_success_shape env now st post t hnew hw
  have hm := archive_media_files_match env post.id (media_source_attachments post).enum st
  refine ⟨_, _, h2, ?_, ?_, ?_, ?_, ?_⟩
  · simpa [make_post_data] using
      archive_media_length env post.id (media_source_attachments post).enum st
  · simpa [make_post_data] using hm.1
  · simpa [make_post_data] using hm.2.1
  · simpa [make_post_data] using hm.2.2
  · simp [make_post_data, archive_media_atts, List.enum_map_snd]

/-- Witness for C9 at a concrete input: of the four attachments of
`postC9`, the missing-url and empty-url ones are dropped and the two lists
pair up positionally. -/
theorem media_lists_parallel_witness :
    ∃ pd rest,
      (archive_post env0 "t" st0 postC9 "favorite").2.postFiles
        = (postC9.id, pd) :: rest ∧
      pd.media_files.length = pd.media_attachments.length ∧
      (pd.media_files.map MediaFileEntry.original_url
        = pd.media_attachments.map fun a => a.url.getD "") ∧
      (pd.media_files.map MediaFileEntry.type
        = pd.media_attachments.map fun a => a.type.getD "unknown") ∧
      (pd.media_files.map MediaFileEntry.description
        = pd.media_attachments.map fun a => a.description.getD "") ∧
      pd.media_attachments
        = (media_source_attachments postC9).filter fun a => truthy a.url :=
  media_lists_parallel env0 "t" st0 postC9 "favorite" (by decide) rfl

/-- A filename present after `download_media` was either already present or
is the file just downloaded. -/
theorem download_media_mem (env : Env) (st : ArchiveState) (u fn x : String)
    (h : x ∈ (download_media env st u fn).2.mediaFiles) :
    x ∈ st.mediaFiles ∨ x = fn := by
  unfold download_media at h
  split at h
  · exact Or.inl h
  · split at h
    · simp only at h
      rcases List.mem_append.mp h with h | h
      · exact Or.inl h
      · exact Or.inr (List.mem_singleton.mp h)
    · exact Or.inl h

/-- If no ledger row carries this `post_id`, the pair check is false for
every category. -/
theorem is_post_archived_false_of_no_row (db : List LedgerRow) (pid t : String)
    (h : (db.any fun r => r.post_id == pid) = false) :
    is_post_archived db pid t = false := by
  unfold is_post_archived
  rw [List.any_eq_false] at h ⊢
  intro r hr hx
  rw [Bool.and_eq_true] at hx
  exact h r hr hx.1

/-- When no row carries this `post_id`, committing inserts the row and the
pair check becomes true. -/
theorem is_post_archived_mark_self (db : List LedgerRow) (pid t pu au ca : String)
    (h : (db.any fun r => r.post_id == pid) = false) :
    is_post_archived (mark_post_archived db pid t pu au ca) pid t = true := by
  simp [mark_post_archived, h, is_post_archived, List.any_append]

/-- If some attachment's url download fails (its file not already present,
and no other processed attachment generates the same filename), the media
loop emits a `media_files` entry whose `local_path` is that original
remote url. -/
theorem archive_media_fallback_mem (env : Env) (pid : String) (j : Nat)
    (att : Attachment) (u : String) (hurl : att.url = some u)
    (hne : (u == "") = false) (hdl : env.downloadOk u = false) :
    ∀ (L : List (Nat × Attachment)) (st : ArchiveState),
      (j, att) ∈ L →
      generate_filename env.md5_8 u pid j ∉ st.mediaFiles →
      (∀ p ∈ L, p ≠ (j, att) → truthy p.2.url = true →
        generate_filename env.md5_8 (p.2.url.getD "") pid p.1
          ≠ generate_filename env.md5_8 u pid j) →
      (⟨u, u, att.type.getD "unknown", att.description.getD ""⟩ : MediaFileEntry)
        ∈ (archive_media env pid st L).2.2 := by
  intro L
  induction L with
  | nil => intro st hmem _ _; exact absurd hmem (List.not_mem_nil _)
  | cons hd tl ih =>
    intro st hmem hfn hdist
    by_cases hhd : hd = (j, att)
    · subst hhd
      have hcont :
          st.mediaFiles.contains (generate_filename env.md5_8 u pid j) = false := by
        simpa using hfn
      simp only [archive_media, hurl, hne, Bool.false_eq_true, if_false,
        download_media, hcont, hdl]
      exact List.mem_cons_self _ _
    · obtain ⟨k, att2⟩ := hd
      have htl : (j, att) ∈ tl := by
        rcases List.mem_cons.mp hmem with heq | h
        · exact absurd heq.symm hhd
        · exact h
      have hdist' : ∀ p ∈ tl, p ≠ (j, att) → truthy p.2.url = true →
          generate_filename env.md5_8 (p.2.url.getD "") pid p.1
            ≠ generate_filename env.md5_8 u pid j :=
        fun p hp => hdist p (List.mem_cons_of_mem _ hp)
      cases hue : att2.url with
      | none =>
        simp only [archive_media, hue]
        exact ih st htl hfn hdist'
      | some u2 =>
        by_cases hu2 : (u2 == "") = true
        · simp only [archive_media, hue, hu2, if_true]
          exact ih st htl hfn hdist'
        · rw [Bool.not_eq_true] at hu2
          have hfn2 : generate_filename env.md5_8 u pid j ∉
              (download_media env st u2
                (generate_filename env.md5_8 u2 pid k)).2.mediaFiles := by
            intro hx
            rcases download_media_mem env st u2 _ _ hx with h | h
            · exact hfn h
            · have hd2 := hdist (k, att2) (List.mem_cons_self _ _) hhd
                (by simp [truthy, hue, hu2])
              simp only [hue, Option.getD_some] at hd2
              exact hd2 h.symm
          simp only [archive_media, hue, hu2, Bool.false_eq_true, if_false]
          exact List.mem_cons_of_mem _ (ih _ htl hfn2 hdist')

/-- C5: a failed media download does not abort the item.  `archive_post`
still returns `true`, commits the (item, category) pair to the ledger, and
writes the record; the failed attachment appears in `media_files` with its
original remote url as the `local_path` fallback, and the remaining
attachments are all still processed (`media_files` stays in one-to-one
correspondence with `media_attachments`). -/
theorem media_download_failure_fallback
    (env : Env) (now : String) (st : ArchiveState) (post : Post) (t : String)
    (j : Nat) (att : Attachment) (u : String)
    (hmem : (j, att) ∈ (media_source_attachments post).enum)
    (hurl : att.url = some u) (hne : (u == "") = false)
    (hdl : env.downloadOk u = false)
    (hfn : generate_filename env.md5_8 u post.id j ∉ st.mediaFiles)
    (hdist : ∀ p ∈ (media_source_attachments post).enum, p ≠ (j, att) →
      truthy p.2.url = true →
      generate_filename env.md5_8 (p.2.url.getD "") post.id p.1
        ≠ generate_filename env.md5_8 u post.id j)
    (hpk : (st.db.any fun r => r.post_id == post.id) = false)
    (hw : env.writeOk post.id = true) :
    (archive_post env now st post t).1 = true ∧
    is_post_archived (archive_post env now st post t).2.db post.id t = true ∧
    ∃ pd rest,
      (archive_post env now st post t).2.postFiles = (post.id, pd) :: rest ∧
      (⟨u, u, att.type.getD "unknown", att.description.getD ""⟩ : MediaFileEntry)
        ∈ pd.media_files ∧
      pd.media_files.length = pd.media_attachments.length := by
  have hnew := is_post_archived_false_of_no_row st.db post.id t hpk
  obtain ⟨h1, h2, h3⟩ := archive_post_success_shape env now st post t hnew hw
  refine ⟨h1, ?_, _, _, h2, ?_, ?_⟩
  · rw [h3]
    exact is_post_archived_mark_self st.db post.id t _ _ _ hpk
  · simpa [make_post_data] using
      archive_media_fallback_mem env post.id j att u hurl hne hdl
        (media_source_attachments post).enum st hmem hfn hdist
  · simpa [make_post_data] using
      archive_media_length env post.id (media_source_attachments post).enum st

/-- Witness for C5 at a concrete input: `postC5`'s second attachment fails
to download under `envC5`; the item is still archived and committed, with
the remote url recorded as the fallback path. -/
theorem media_download_failure_fallback_witness :
    (archive_post envC5 "t" st0 postC5 "favorite").1 = true ∧
    is_post_archived (archive_post envC5 "t" st0 postC5 "favorite").2.db
      postC5.id "favorite" = true ∧
    ∃ pd rest,
      (archive_post envC5 "t" st0 postC5 "favorite").2.postFiles
        = (postC5.id, pd) :: rest ∧
      (⟨"https://files.h/b.png", "https://files.h/b.png",
          attB.type.getD "unknown", attB.description.getD ""⟩ : MediaFileEntry)
        ∈ pd.media_files ∧
      pd.media_files.length = pd.media_attachments.length :=
  media_download_failure_fallback envC5 "t" st0 postC5 "favorite" 1 attB
    "https://files.h/b.png" (by decide) rfl (by decide) (by decide)
    (by decide) (by decide) (by decide) rfl

/-- C5 counterexample: for an item (id `5`, one failing attachment) whose id
already has a ledger row under the *other* category, `archive_post` reports
success and writes the record, but the ledger commit is silently ignored
(primary key is `post_id` alone), so the (5, bookmark) pair is NOT
committed — the claim's "the item is committed to the ledger" fails as
stated. -/
theorem media_fallback_commit_counterexample :
    (archive_post envC5 "t" ⟨[⟨"5", "favorite", "", "", ""⟩], [], []⟩
        postC5 "bookmark").1 = true ∧
    (archive_post envC5 "t" ⟨[⟨"5", "favorite", "", "", ""⟩], [], []⟩
        postC5 "bookmark").2.postFiles.length = 1 ∧
    is_post_archived
      (archive_post envC5 "t" ⟨[⟨"5", "favorite", "", "", ""⟩], [], []⟩
          postC5 "bookmark").2.db "5" "bookmark" = false := by
  refine ⟨?_, ?_, ?_⟩ <;> decide

end MastodonArchiver
